import Mathlib

/-!
Verification of the `monzo_apy` client library against its specification.

The definitions below are a shallow embedding of `src/monzo/client.py`
(and the exception classes of `src/monzo/exceptions.py`):

* `Value`, `pyStr`, `jsonDumps`, `formValue`, `encodeBody` embed the body
  encoding logic of `MonzoClient._make_request_with_retry` (client.py
  lines 243-266);
* `HttpOutcome`, `EngineError`, `attemptLoop`, `make_request_with_retry`
  embed the retry loop (client.py lines 235-328);
* `get_all_transactions` embeds `MonzoClient._get_all_transactions`;
* `get_pots` / `get_pot_by_name` embed the pot lookup;
* `client_init` / `load_auth` embed the credential resolution of
  `MonzoClient.__init__` and `MonzoClient.load_auth`;
* `deposit_to_pot_body` / `withdraw_from_pot_body` embed the request
  bodies of `deposit_to_pot` and `withdraw_from_pot`.

Machine-level side effects (actual sockets, actual sleeping, stdout) are
abstracted: the HTTP exchange of each attempt is an oracle
`Nat → HttpOutcome`, and sleeps are recorded as a list of durations.
-/

namespace Monzo

/-- Python truthiness of an optional string: `None` and `""` are falsy. -/
def pyTruthy : Option String → Bool
  | none => false
  | some s => s ≠ ""

/-- Python `x or y` on optional strings: returns `x` when truthy, else `y`. -/
def pyOr (x y : Option String) : Option String :=
  if pyTruthy x then x else y

/-- A single-quote character as a string (used by Python `repr`). -/
def squote : String := String.singleton (Char.ofNat 39)

/-- Python values as they appear in request bodies built by the client:
strings, integers, booleans, dicts and lists. -/
inductive Value where
  | vStr (s : String)
  | vInt (n : Int)
  | vBool (b : Bool)
  | vDict (pairs : List (String × Value))
  | vList (vs : List Value)

mutual

/-- Python `repr` of a `Value` (strings get single quotes, `True`/`False`
capitalised, dicts/lists rendered recursively).  Escape sequences inside
strings are not modelled: the client only builds values from plain text. -/
def pyRepr : Value → String
  | .vStr s => squote ++ s ++ squote
  | .vInt n => toString n
  | .vBool b => if b then "True" else "False"
  | .vList vs => "[" ++ String.intercalate ", " (pyReprList vs) ++ "]"
  | .vDict ps => "\x7b" ++ String.intercalate ", " (pyReprPairs ps) ++ "\x7d"

/-- `pyRepr` mapped over a list of values. -/
def pyReprList : List Value → List String
  | [] => []
  | v :: vs => pyRepr v :: pyReprList vs

/-- `pyRepr` of the entries of a dict. -/
def pyReprPairs : List (String × Value) → List String
  | [] => []
  | (k, v) :: ps => (squote ++ k ++ squote ++ ": " ++ pyRepr v) :: pyReprPairs ps

end

/-- Python `str` of a `Value`: identity on strings, decimal rendering for
integers, `True`/`False` for booleans, and `repr` for lists and dicts. -/
def pyStr : Value → String
  | .vStr s => s
  | .vInt n => toString n
  | .vBool b => if b then "True" else "False"
  | .vList vs => pyRepr (.vList vs)
  | .vDict ps => pyRepr (.vDict ps)

mutual

/-- Python `json.dumps` of a `Value` with default separators. -/
def jsonDumps : Value → String
  | .vStr s => "\"" ++ s ++ "\""
  | .vInt n => toString n
  | .vBool b => if b then "true" else "false"
  | .vList vs => "[" ++ String.intercalate ", " (jsonDumpsList vs) ++ "]"
  | .vDict ps => "\x7b" ++ String.intercalate ", " (jsonDumpsPairs ps) ++ "\x7d"

/-- `jsonDumps` mapped over a list of values. -/
def jsonDumpsList : List Value → List String
  | [] => []
  | v :: vs => jsonDumps v :: jsonDumpsList vs

/-- `jsonDumps` of the entries of a dict. -/
def jsonDumpsPairs : List (String × Value) → List String
  | [] => []
  | (k, v) :: ps => ("\"" ++ k ++ "\": " ++ jsonDumps v) :: jsonDumpsPairs ps

end

/-- Whether a value is a Python `dict`. -/
def Value.isDict : Value → Bool
  | .vDict _ => true
  | _ => false

/-- Whether a value is scalar (not a dict and not a list). -/
def Value.isScalar : Value → Bool
  | .vDict _ => false
  | .vList _ => false
  | _ => true

/-- The per-value conversion the client applies when building form data
(client.py line 249): `str(v) if not isinstance(v, dict) else json.dumps(v)`. -/
def formValue (v : Value) : String :=
  match v with
  | .vDict ps => jsonDumps (.vDict ps)
  | v => pyStr v

/-- Modelled from the spec: "non-scalar values are JSON-stringified first" —
the per-value conversion the specification describes for form bodies. -/
def specFormValue (v : Value) : String :=
  if v.isScalar then pyStr v else jsonDumps v

/-- How the request body is put on the wire. -/
inductive BodyEncoding where
  | form (fields : List (String × String))
  | json (data : Option (List (String × Value)))

/-- Python truthiness of the optional `data` dict (`None` and `{}` falsy). -/
def dataTruthy : Option (List (String × Value)) → Bool
  | none => false
  | some l => !l.isEmpty

/-- Body-encoding selection of `_make_request_with_retry`
(client.py lines 243-266): form data for PUT-with-body and for POST-with-body
to `/webhooks` or `/feed`, JSON otherwise. -/
def encodeBody (method endpoint : String) (data : Option (List (String × Value))) :
    BodyEncoding :=
  if (method == "PUT" && dataTruthy data)
      || (method == "POST" && dataTruthy data
            && (endpoint == "/webhooks" || endpoint == "/feed")) then
    .form ((data.getD []).map (fun kv => (kv.1, formValue kv.2)))
  else
    .json data

theorem formValue_eq (v : Value) :
    formValue v = if v.isDict then jsonDumps v else pyStr v := by
  cases v <;> rfl

/-- Outcome of one HTTP exchange of the retry loop, as seen by the
exception handlers of `_make_request_with_retry`:
* `success content`: `raise_for_status` did not raise; `content` is the
  parsed JSON body, `none` when the response body is empty;
* `httpStatus status hasContent body`: `raise_for_status` raised
  `HTTPError`; `body` is the parsed JSON error payload and `hasContent`
  records whether the raw response body was non-empty;
* `connError e` / `timeoutError e`: `requests` raised a
  `ConnectionError` / `Timeout` with text `e`;
* `otherRequestError e`: any other `RequestException` with text `e`. -/
inductive HttpOutcome where
  | success (content : Option (List (String × Value)))
  | httpStatus (status : Nat) (hasContent : Bool) (body : List (String × Value))
  | connError (e : String)
  | timeoutError (e : String)
  | otherRequestError (e : String)

/-- The error taxonomy of `src/monzo/exceptions.py`, as raised by
`_make_request_with_retry`.  `fallThrough` stands for the `MonzoAPIError`
raised after the loop (client.py line 328, "This should never be reached"). -/
inductive EngineError where
  | authentication (msg : String) (responseData : List (String × Value))
  | rateLimit (msg : String) (responseData : List (String × Value))
  | validation (msg : String) (responseData : List (String × Value))
  | api (msg : String) (statusCode : Option Nat) (responseData : List (String × Value))
  | fallThrough (msg : String)

/-- Result of a run of the retry loop: the returned mapping or raised
error, the number of HTTP attempts issued, and the sleeps performed
(in seconds, in order). -/
structure RunResult where
  result : Except EngineError (List (String × Value))
  attempts : Nat
  sleeps : List ℚ

/-- Prefix a run result with one earlier attempt that slept `w` seconds
before retrying. -/
def RunResult.afterSleep (w : ℚ) (r : RunResult) : RunResult :=
  ⟨r.result, r.attempts + 1, w :: r.sleeps⟩

/-- The loop `for attempt in range(self.max_retries + 1)` of
`_make_request_with_retry` (client.py lines 241-328).  `responses k` is the
outcome of the HTTP exchange of attempt `k` (0-based); `remaining` is the
number of loop iterations left, and the `remaining = 0` base case is the
post-loop `MonzoAPIError` of line 328.  `retry_delay` is modelled as a
rational: the only arithmetic performed on it is multiplication by powers
of two, which is exact in binary floating point as well. -/
def attemptLoop (maxRetries : Nat) (retryDelay : ℚ)
    (responses : Nat → HttpOutcome) : Nat → Nat → RunResult
  | _, 0 =>
    ⟨.error (.fallThrough s!"Request failed after {maxRetries} retries"), 0, []⟩
  | attempt, remaining + 1 =>
    match responses attempt with
    | .success content => ⟨.ok (content.getD []), 1, []⟩
    | .httpStatus status hasContent body =>
      if status = 401 then
        ⟨.error (.authentication "Invalid access token" body), 1, []⟩
      else if status = 429 then
        if attempt < maxRetries then
          (attemptLoop maxRetries retryDelay responses (attempt + 1) remaining).afterSleep
            (retryDelay * 2 ^ attempt)
        else
          ⟨.error (.rateLimit "Rate limit exceeded" body), 1, []⟩
      else if status = 400 then
        ⟨.error (.validation "Invalid request" body), 1, []⟩
      else if 500 ≤ status then
        if attempt < maxRetries then
          (attemptLoop maxRetries retryDelay responses (attempt + 1) remaining).afterSleep
            (retryDelay * 2 ^ attempt)
        else
          ⟨.error (.api s!"API request failed: {status}" (some status)
              (if hasContent then body else [])), 1, []⟩
      else
        ⟨.error (.api s!"API request failed: {status}" (some status)
            (if hasContent then body else [])), 1, []⟩
    | .connError e =>
      if attempt < maxRetries then
        (attemptLoop maxRetries retryDelay responses (attempt + 1) remaining).afterSleep
          (retryDelay * 2 ^ attempt)
      else
        ⟨.error (.api s!"Request failed after {maxRetries} retries: {e}" none []), 1, []⟩
    | .timeoutError e =>
      if attempt < maxRetries then
        (attemptLoop maxRetries retryDelay responses (attempt + 1) remaining).afterSleep
          (retryDelay * 2 ^ attempt)
      else
        ⟨.error (.api s!"Request failed after {maxRetries} retries: {e}" none []), 1, []⟩
    | .otherRequestError e => ⟨.error (.api s!"Request failed: {e}" none []), 1, []⟩

/-- `MonzoClient._make_request_with_retry` (client.py lines 211-328): the
missing-token guard of lines 235-236 followed by the retry loop.
`max_retries` is a natural number, matching the documented non-negative
retry budget. -/
def make_request_with_retry (accessToken : Option String) (maxRetries : Nat)
    (retryDelay : ℚ) (responses : Nat → HttpOutcome) : RunResult :=
  if pyTruthy accessToken then
    attemptLoop maxRetries retryDelay responses 0 (maxRetries + 1)
  else
    ⟨.error (.authentication "No access token provided" []), 0, []⟩

theorem attemptLoop_attempts_le (maxRetries : Nat) (retryDelay : ℚ)
    (responses : Nat → HttpOutcome) (remaining attempt : Nat) :
    (attemptLoop maxRetries retryDelay responses attempt remaining).attempts ≤ remaining := by
  induction remaining generalizing attempt with
  | zero => simp [attemptLoop]
  | succ n ih =>
    unfold attemptLoop
    cases responses attempt with
    | success content => simp
    | httpStatus status hasContent body =>
      simp only
      split
      · simp
      · split
        · split
          · have := ih (attempt + 1)
            simp [RunResult.afterSleep]
            omega
          · simp
        · split
          · simp
          · split
            · split
              · have := ih (attempt + 1)
                simp [RunResult.afterSleep]
                omega
              · simp
            · simp
    | connError e =>
      simp only
      split
      · have := ih (attempt + 1)
        simp [RunResult.afterSleep]
        omega
      · simp
    | timeoutError e =>
      simp only
      split
      · have := ih (attempt + 1)
        simp [RunResult.afterSleep]
        omega
      · simp
    | otherRequestError e => simp

theorem attemptLoop_persistent_429 (maxRetries : Nat) (d : ℚ)
    (rs : Nat → HttpOutcome) (body : List (String × Value))
    (h : ∀ k, rs k = .httpStatus 429 true body) (s : Nat) :
    ∀ a, a + s = maxRetries →
      attemptLoop maxRetries d rs a (s + 1)
        = ⟨.error (.rateLimit "Rate limit exceeded" body), s + 1,
           (List.range' a s).map (fun k => d * 2 ^ k)⟩ := by
  induction s with
  | zero =>
    intro a ha
    unfold attemptLoop
    rw [h a]
    simp only
    rw [if_pos trivial, if_neg (show ¬ a < maxRetries by omega),
      show List.range' a 0 = [] from rfl]
    simp
  | succ n ih =>
    intro a ha
    unfold attemptLoop
    rw [h a]
    simp only
    rw [if_pos trivial, if_pos (show a < maxRetries by omega),
      ih (a + 1) (by omega), List.range'_succ]
    rfl

theorem attemptLoop_persistent_5xx (maxRetries : Nat) (d : ℚ)
    (rs : Nat → HttpOutcome) (body : List (String × Value)) (status : Nat)
    (hs : 500 ≤ status)
    (h : ∀ k, rs k = .httpStatus status true body) (s : Nat) :
    ∀ a, a + s = maxRetries →
      attemptLoop maxRetries d rs a (s + 1)
        = ⟨.error (.api s!"API request failed: {status}" (some status) body), s + 1,
           (List.range' a s).map (fun k => d * 2 ^ k)⟩ := by
  induction s with
  | zero =>
    intro a ha
    unfold attemptLoop
    rw [h a]
    simp only
    rw [if_neg (show ¬(status = 401) by omega), if_neg (show ¬(status = 429) by omega),
      if_neg (show ¬(status = 400) by omega), if_pos hs,
      if_neg (show ¬ a < maxRetries by omega), if_pos trivial,
      show List.range' a 0 = [] from rfl]
    simp
  | succ n ih =>
    intro a ha
    unfold attemptLoop
    rw [h a]
    simp only
    rw [if_neg (show ¬(status = 401) by omega), if_neg (show ¬(status = 429) by omega),
      if_neg (show ¬(status = 400) by omega), if_pos hs,
      if_pos (show a < maxRetries by omega), ih (a + 1) (by omega), List.range'_succ]
    rfl

theorem attemptLoop_no_fallThrough (maxRetries : Nat) (retryDelay : ℚ)
    (responses : Nat → HttpOutcome) (s : Nat) :
    ∀ a, a + s = maxRetries → ∀ msg,
      (attemptLoop maxRetries retryDelay responses a (s + 1)).result
        ≠ .error (.fallThrough msg) := by
  induction s with
  | zero =>
    intro a ha msg
    unfold attemptLoop
    cases responses a with
    | success content => simp
    | httpStatus status hasContent body =>
      simp only
      split
      · simp
      · split
        · rw [if_neg (by omega)]
          simp
        · split
          · simp
          · split
            · rw [if_neg (by omega)]
              simp
            · simp
    | connError e =>
      simp only
      rw [if_neg (show ¬ a < maxRetries by omega)]
      simp
    | timeoutError e =>
      simp only
      rw [if_neg (show ¬ a < maxRetries by omega)]
      simp
    | otherRequestError e => simp
  | succ n ih =>
    intro a ha msg
    unfold attemptLoop
    cases responses a with
    | success content => simp
    | httpStatus status hasContent body =>
      simp only
      split
      · simp
      · split
        · split
          · simpa [RunResult.afterSleep] using ih (a + 1) (by omega) msg
          · simp
        · split
          · simp
          · split
            · split
              · simpa [RunResult.afterSleep] using ih (a + 1) (by omega) msg
              · simp
            · simp
    | connError e =>
      simp only
      split
      · simpa [RunResult.afterSleep] using ih (a + 1) (by omega) msg
      · simp
    | timeoutError e =>
      simp only
      split
      · simpa [RunResult.afterSleep] using ih (a + 1) (by omega) msg
      · simp
    | otherRequestError e => simp

/-- C1: the request engine makes at most `max_retries + 1` attempts in
total; under a persistent 429 it sleeps `retry_delay * 2^k` between
consecutive attempts (`k` starting at 0), makes exactly `max_retries + 1`
attempts, and raises a RateLimit error carrying the parsed error body;
under a persistent 5xx it makes exactly `max_retries + 1` attempts with
the same backoff and raises a generic API error carrying the status code
and parsed body. -/
theorem C1_retry_backoff :
    (∀ (tok : Option String) (mr : Nat) (d : ℚ) (rs : Nat → HttpOutcome),
      (make_request_with_retry tok mr d rs).attempts ≤ mr + 1)
    ∧ (∀ (tok : String) (mr : Nat) (d : ℚ) (rs : Nat → HttpOutcome)
        (body : List (String × Value)), tok ≠ "" →
        (∀ k, rs k = .httpStatus 429 true body) →
        make_request_with_retry (some tok) mr d rs
          = ⟨.error (.rateLimit "Rate limit exceeded" body), mr + 1,
             (List.range mr).map (fun k => d * 2 ^ k)⟩)
    ∧ (∀ (tok : String) (mr : Nat) (d : ℚ) (rs : Nat → HttpOutcome)
        (body : List (String × Value)) (status : Nat), tok ≠ "" → 500 ≤ status →
        (∀ k, rs k = .httpStatus status true body) →
        make_request_with_retry (some tok) mr d rs
          = ⟨.error (.api s!"API request failed: {status}" (some status) body), mr + 1,
             (List.range mr).map (fun k => d * 2 ^ k)⟩) := by
  refine ⟨?_, ?_, ?_⟩
  · intro tok mr d rs
    unfold make_request_with_retry
    split
    · exact attemptLoop_attempts_le mr d rs (mr + 1) 0
    · simp
  · intro tok mr d rs body htok h
    unfold make_request_with_retry
    rw [if_pos (by simp [pyTruthy, htok])]
    rw [attemptLoop_persistent_429 mr d rs body h mr 0 (by omega),
      List.range_eq_range']
  · intro tok mr d rs body status htok hs h
    unfold make_request_with_retry
    rw [if_pos (by simp [pyTruthy, htok])]
    rw [attemptLoop_persistent_5xx mr d rs body status hs h mr 0 (by omega),
      List.range_eq_range']

theorem C1_retry_backoff_witness :
    make_request_with_retry (some "tok") 1 1 (fun _ => .httpStatus 429 true [])
      = ⟨.error (.rateLimit "Rate limit exceeded" []), 1 + 1,
         (List.range 1).map (fun k => (1 : ℚ) * 2 ^ k)⟩
    ∧ make_request_with_retry (some "tok") 3 1 (fun _ => .httpStatus 500 true [])
      = ⟨.error (.api s!"API request failed: {(500 : Nat)}" (some 500) []), 3 + 1,
         (List.range 3).map (fun k => (1 : ℚ) * 2 ^ k)⟩ :=
  ⟨C1_retry_backoff.2.1 "tok" 1 1 _ [] (by decide) (fun _ => rfl),
   C1_retry_backoff.2.2 "tok" 3 1 _ [] 500 (by decide) (by omega) (fun _ => rfl)⟩

/-- C2: when the first HTTP response has status 401 the engine raises an
Authentication error carrying the parsed error body immediately: exactly
one attempt, no retry, no sleep. -/
theorem C2_auth_error_immediate (tok : String) (mr : Nat) (d : ℚ)
    (rs : Nat → HttpOutcome) (hasContent : Bool) (body : List (String × Value))
    (htok : tok ≠ "") (h401 : rs 0 = .httpStatus 401 hasContent body) :
    make_request_with_retry (some tok) mr d rs
      = ⟨.error (.authentication "Invalid access token" body), 1, []⟩ := by
  unfold make_request_with_retry
  rw [if_pos (by simp [pyTruthy, htok])]
  show attemptLoop mr d rs 0 (mr + 1) = _
  unfold attemptLoop
  rw [h401]
  simp only
  rw [if_pos trivial]

theorem C2_auth_error_immediate_witness :
    make_request_with_retry (some "tok") 3 1 (fun _ => .httpStatus 401 true [])
      = ⟨.error (.authentication "Invalid access token" []), 1, []⟩ :=
  C2_auth_error_immediate "tok" 3 1 _ true [] (by decide) rfl

/-- C4: when no access token is set (absent or empty) the engine raises an
Authentication error before any HTTP attempt: zero attempts and zero
sleeps, whatever the server would have answered. -/
theorem C4_missing_token (tok : Option String) (mr : Nat) (d : ℚ)
    (rs : Nat → HttpOutcome) (htok : pyTruthy tok = false) :
    make_request_with_retry tok mr d rs
      = ⟨.error (.authentication "No access token provided" []), 0, []⟩ := by
  unfold make_request_with_retry
  rw [htok]
  simp

theorem C4_missing_token_witness :
    make_request_with_retry none 3 1 (fun _ => .success none)
      = ⟨.error (.authentication "No access token provided" []), 0, []⟩ :=
  C4_missing_token none 3 1 _ rfl

/-- C9: for every retry budget `max_retries ≥ 0` the retry loop itself
returns a parsed mapping or raises a taxonomy error within its
`max_retries + 1` iterations, so the post-loop "should never be reached"
error is never produced. -/
theorem C9_fallThrough_unreachable (tok : Option String) (mr : Nat) (d : ℚ)
    (rs : Nat → HttpOutcome) (msg : String) :
    (make_request_with_retry tok mr d rs).result ≠ .error (.fallThrough msg) := by
  unfold make_request_with_retry
  split
  · exact attemptLoop_no_fallThrough mr d rs mr 0 (by omega) msg
  · simp

/-- C3 (counterexample): the claim that in the form-encoded case "every
non-scalar value is JSON-stringified" fails on a list value: a PUT body
containing the list `["a"]` is form-encoded with Python `str` (giving a
Python repr), not with `json.dumps`. -/
theorem C3_counterexample :
    encodeBody "PUT" "/transaction-receipts"
        (some [("receipt", Value.vList [Value.vStr "a"])])
      = BodyEncoding.form [("receipt", pyStr (Value.vList [Value.vStr "a"]))]
    ∧ pyStr (Value.vList [Value.vStr "a"])
        ≠ specFormValue (Value.vList [Value.vStr "a"]) := by
  constructor
  · rfl
  · decide

/-- C3 (amended): for a non-empty body, the engine form-encodes exactly
when the method is PUT, or the method is POST and the endpoint is
`/webhooks` or `/feed`; in the form-encoded case each dict value is
JSON-stringified and every other value (lists included) is converted with
Python `str`; in every other case the body is sent as a JSON request
body. -/
theorem C3_body_encoding (method endpoint : String)
    (data : List (String × Value)) (hne : data ≠ []) :
    (encodeBody method endpoint (some data)
        = .form (data.map (fun kv =>
            (kv.1, if kv.2.isDict then jsonDumps kv.2 else pyStr kv.2)))
      ↔ (method = "PUT"
          ∨ (method = "POST" ∧ (endpoint = "/webhooks" ∨ endpoint = "/feed"))))
    ∧ (¬(method = "PUT"
          ∨ (method = "POST" ∧ (endpoint = "/webhooks" ∨ endpoint = "/feed")))
        → encodeBody method endpoint (some data) = .json (some data)) := by
  have hdt : dataTruthy (some data) = true := by
    cases data with
    | nil => exact absurd rfl hne
    | cons x xs => rfl
  have hg : ((method == "PUT" && dataTruthy (some data))
      || (method == "POST" && dataTruthy (some data)
            && (endpoint == "/webhooks" || endpoint == "/feed"))) = true
      ↔ (method = "PUT"
          ∨ (method = "POST" ∧ (endpoint = "/webhooks" ∨ endpoint = "/feed"))) := by
    simp [hdt]
  have hval : (fun kv : String × Value => (kv.1, formValue kv.2))
      = (fun kv : String × Value =>
          (kv.1, if kv.2.isDict then jsonDumps kv.2 else pyStr kv.2)) := by
    funext kv
    rw [formValue_eq]
  constructor
  · constructor
    · intro h
      by_cases hcond : (method = "PUT"
          ∨ (method = "POST" ∧ (endpoint = "/webhooks" ∨ endpoint = "/feed")))
      · exact hcond
      · exfalso
        unfold encodeBody at h
        rw [if_neg (fun hgt => hcond (hg.mp hgt))] at h
        exact BodyEncoding.noConfusion h
    · intro hcond
      unfold encodeBody
      rw [if_pos (hg.mpr hcond)]
      show BodyEncoding.form (data.map _) = _
      rw [hval]
  · intro hcond
    unfold encodeBody
    rw [if_neg (fun hgt => hcond (hg.mp hgt))]

theorem C3_body_encoding_witness :
    ([("account_id", Value.vStr "acc_1")] : List (String × Value)) ≠ []
    ∧ ((encodeBody "PUT" "/pots/p/deposit" (some [("account_id", Value.vStr "acc_1")])
        = .form ([("account_id", Value.vStr "acc_1")].map (fun kv =>
            (kv.1, if kv.2.isDict then jsonDumps kv.2 else pyStr kv.2)))
      ↔ ("PUT" = "PUT"
          ∨ ("PUT" = "POST"
              ∧ ("/pots/p/deposit" = "/webhooks" ∨ "/pots/p/deposit" = "/feed"))))
    ∧ (¬("PUT" = "PUT"
          ∨ ("PUT" = "POST"
              ∧ ("/pots/p/deposit" = "/webhooks" ∨ "/pots/p/deposit" = "/feed")))
        → encodeBody "PUT" "/pots/p/deposit" (some [("account_id", Value.vStr "acc_1")])
            = .json (some [("account_id", Value.vStr "acc_1")]))) :=
  ⟨by simp, C3_body_encoding "PUT" "/pots/p/deposit" _ (by simp)⟩

/-- Request body built by `MonzoClient.deposit_to_pot` (client.py lines
585-592): `source_account_id` and `amount`, plus `dedupe_id` when the
supplied token is truthy (`if dedupe_id:`). -/
def deposit_to_pot_body (accountId : String) (amount : Int)
    (dedupeId : Option String) : List (String × Value) :=
  [("source_account_id", .vStr accountId), ("amount", .vInt amount)]
    ++ (if pyTruthy dedupeId then [("dedupe_id", .vStr (dedupeId.getD ""))] else [])

/-- Request body built by `MonzoClient.withdraw_from_pot` (client.py lines
612-619): `destination_account_id` and `amount`, plus `dedupe_id` when the
supplied token is truthy. -/
def withdraw_from_pot_body (accountId : String) (amount : Int)
    (dedupeId : Option String) : List (String × Value) :=
  [("destination_account_id", .vStr accountId), ("amount", .vInt amount)]
    ++ (if pyTruthy dedupeId then [("dedupe_id", .vStr (dedupeId.getD ""))] else [])

/-- C10: the deposit and withdraw bodies contain `dedupe_id` with the
caller's token exactly when the token is a non-empty string; with an
absent or empty token the key is omitted; the amount and account-id
fields are the same either way. -/
theorem C10_dedupe_id (accountId : String) (amount : Int)
    (dedupeId : Option String) :
    ((∀ s, dedupeId = some s → s ≠ "" →
        List.lookup "dedupe_id" (deposit_to_pot_body accountId amount dedupeId)
          = some (.vStr s)
        ∧ List.lookup "dedupe_id" (withdraw_from_pot_body accountId amount dedupeId)
          = some (.vStr s))
      ∧ (pyTruthy dedupeId = false →
          List.lookup "dedupe_id" (deposit_to_pot_body accountId amount dedupeId) = none
          ∧ List.lookup "dedupe_id" (withdraw_from_pot_body accountId amount dedupeId)
            = none))
    ∧ (List.lookup "source_account_id" (deposit_to_pot_body accountId amount dedupeId)
        = some (.vStr accountId)
      ∧ List.lookup "amount" (deposit_to_pot_body accountId amount dedupeId)
        = some (.vInt amount)
      ∧ List.lookup "destination_account_id"
          (withdraw_from_pot_body accountId amount dedupeId) = some (.vStr accountId)
      ∧ List.lookup "amount" (withdraw_from_pot_body accountId amount dedupeId)
        = some (.vInt amount)) := by
  refine ⟨⟨?_, ?_⟩, ?_, ?_, ?_, ?_⟩
  · intro s hd hs
    subst hd
    have ht : pyTruthy (some s) = true := by simp [pyTruthy, hs]
    constructor <;>
      simp [deposit_to_pot_body, withdraw_from_pot_body, ht, List.lookup]
  · intro hf
    constructor <;>
      simp [deposit_to_pot_body, withdraw_from_pot_body, hf, List.lookup]
  · cases h : pyTruthy dedupeId <;> simp [deposit_to_pot_body, h, List.lookup]
  · cases h : pyTruthy dedupeId <;> simp [deposit_to_pot_body, h, List.lookup]
  · cases h : pyTruthy dedupeId <;> simp [withdraw_from_pot_body, h, List.lookup]
  · cases h : pyTruthy dedupeId <;> simp [withdraw_from_pot_body, h, List.lookup]

theorem C10_dedupe_id_witness :
    List.lookup "dedupe_id" (deposit_to_pot_body "acc_1" 100 (some "dd"))
      = some (.vStr "dd")
    ∧ List.lookup "dedupe_id" (withdraw_from_pot_body "acc_1" 100 none) = none
    ∧ List.lookup "amount" (withdraw_from_pot_body "acc_1" 100 (some ""))
      = some (.vInt 100) :=
  ⟨((C10_dedupe_id "acc_1" 100 (some "dd")).1.1 "dd" rfl (by decide)).1,
   ((C10_dedupe_id "acc_1" 100 none).1.2 rfl).2,
   (C10_dedupe_id "acc_1" 100 (some "")).2.2.2.2⟩

/-- Python `str.lower`, modelled as per-character lowercasing. -/
def pyLower (s : String) : String := String.mk (s.data.map Char.toLower)

/-- A Monzo pot (models.py lines 164-176; the fields the client logic
reads, with `name` a required string as in the dataclass). -/
structure Pot where
  id : String
  name : String
  balance : Int
  currency : String
  style : String
  deleted : Bool
  deriving DecidableEq

/-- `MonzoClient.get_pots` (client.py lines 500-523) after decoding:
optionally filters the server's pots by case-insensitive substring match
on a truthy `pot_name` (`if pot_name:` skips the filter for `None` and
`""`; `if pot.name and ...` skips pots with empty names). -/
def get_pots (serverPots : List Pot) (potName : Option String) : List Pot :=
  if pyTruthy potName then
    serverPots.filter (fun p =>
      decide (p.name ≠ "")
        && decide ((pyLower (potName.getD "")).data <:+: (pyLower p.name).data))
  else
    serverPots

/-- `MonzoClient.get_pot_by_name` (client.py lines 541-565): substring
filter via `get_pots`, then the first pot with a truthy name equal to the
request case-insensitively, else `ValueError` with the name in the
message. -/
def get_pot_by_name (serverPots : List Pot) (accountId potName : String) :
    Except String Pot :=
  match (get_pots serverPots (some potName)).find? (fun p =>
      decide (p.name ≠ "") && decide (pyLower p.name = pyLower potName)) with
  | some p => .ok p
  | none => .error ("No pot found with name " ++ squote ++ potName ++ squote
      ++ " in account " ++ accountId)

theorem find?_filter_of_imp {α : Type} (l : List α) (keep q : α → Bool)
    (h : ∀ a, q a = true → keep a = true) :
    (l.filter keep).find? q = l.find? q := by
  induction l with
  | nil => rfl
  | cons x xs ih =>
    by_cases hq : q x = true
    · rw [List.filter_cons, if_pos (h x hq), List.find?_cons_of_pos _ hq,
        List.find?_cons_of_pos _ hq]
    · have hq' : q x = false := by
        cases hqx : q x
        · rfl
        · exact absurd hqx hq
      cases hk : keep x with
      | false =>
        rw [List.filter_cons, if_neg (by simp [hk]), ih,
          List.find?_cons_of_neg _ (by simp [hq'])]
      | true =>
        rw [List.filter_cons, if_pos hk, List.find?_cons_of_neg _ (by simp [hq']),
          List.find?_cons_of_neg _ (by simp [hq']), ih]

/-- A pot whose name is the empty string (a valid value of the required
`name: str` field). -/
def emptyNamePot : Pot :=
  { id := "pot_1", name := "", balance := 0, currency := "GBP",
    style := "beach_ball", deleted := false }

/-- C6 (counterexample): with the requested name `""`, the first (only)
pot's name equals the requested name under case-insensitive comparison,
yet `get_pot_by_name` raises the not-found error: pots with falsy (empty)
names are never matched. -/
theorem C6_counterexample :
    [emptyNamePot].find? (fun p => decide (pyLower p.name = pyLower ""))
      = some emptyNamePot
    ∧ get_pot_by_name [emptyNamePot] "acc_1" ""
      = .error ("No pot found with name " ++ squote ++ "" ++ squote
          ++ " in account " ++ "acc_1") := by
  constructor
  · decide
  · rfl

/-- C6 (amended): `get_pot_by_name` returns the first pot of the server
list whose name is non-empty and equals the requested name under
case-insensitive comparison; when no such pot exists it raises the
not-found `ValueError` (distinct from the `MonzoAPIError` taxonomy) with
the exact unmatched name embedded in the message. -/
theorem C6_get_pot_by_name (serverPots : List Pot) (accountId potName : String) :
    get_pot_by_name serverPots accountId potName
      = match serverPots.find? (fun p =>
            decide (p.name ≠ "") && decide (pyLower p.name = pyLower potName)) with
        | some p => .ok p
        | none => .error ("No pot found with name " ++ squote ++ potName ++ squote
            ++ " in account " ++ accountId) := by
  unfold get_pot_by_name get_pots
  by_cases hpn : potName = ""
  · subst hpn
    rfl
  · rw [if_pos (by simp [pyTruthy, hpn])]
    rw [find?_filter_of_imp]
    intro a hq
    simp only [Bool.and_eq_true, decide_eq_true_eq] at hq ⊢
    refine ⟨hq.1, ?_⟩
    rw [hq.2]
    exact List.infix_refl _

/-- The five credential fields resolved by the client, each optionally
present (as constructor arguments, as environment variables, or as keys
of the auth file). -/
structure Credentials where
  accessToken : Option String
  refreshToken : Option String
  clientId : Option String
  clientSecret : Option String
  redirectUri : Option String
  deriving DecidableEq

/-- The auth file on disk: absent, present but not valid JSON, or valid
JSON with the keys it holds (`data.get` of a missing key gives `None`,
so partial files are `valid` with `none` fields). -/
inductive AuthFile where
  | absent
  | corrupt
  | valid (data : Credentials)
  deriving DecidableEq

/-- `os.path.exists(auth_file)`. -/
def AuthFile.fileExists : AuthFile → Bool
  | .absent => false
  | _ => true

/-- `MonzoClient.load_auth` (client.py lines 98-107): `json.load` followed
by `data.get` of each key; on a file that is not valid JSON, `json.load`
raises `json.JSONDecodeError`, which propagates to the caller. -/
def load_auth : AuthFile → Except String Credentials
  | .absent => .error "FileNotFoundError"
  | .corrupt => .error "json.JSONDecodeError"
  | .valid d => .ok d

/-- Argument/environment resolution of `MonzoClient.__init__`
(client.py lines 57-61): each field is explicit argument `or` environment
variable. -/
def resolveArgEnv (args env : Credentials) : Credentials :=
  { accessToken := pyOr args.accessToken env.accessToken
    refreshToken := pyOr args.refreshToken env.refreshToken
    clientId := pyOr args.clientId env.clientId
    clientSecret := pyOr args.clientSecret env.clientSecret
    redirectUri := pyOr args.redirectUri env.redirectUri }

/-- Credential resolution of `MonzoClient.__init__` (client.py lines
53-65): set each field to argument-or-environment, then, only when the
resolved access token is falsy and the auth file exists, call
`load_auth`, which replaces all five fields with the file's values (and
propagates the decode error of a corrupt file). -/
def client_init (args env : Credentials) (file : AuthFile) :
    Except String Credentials :=
  if !pyTruthy (resolveArgEnv args env).accessToken && file.fileExists then
    load_auth file
  else
    .ok (resolveArgEnv args env)

/-- Credentials with every field absent. -/
def emptyCreds : Credentials := ⟨none, none, none, none, none⟩

/-- Constructor arguments supplying only `client_id="X"`. -/
def argsClientIdX : Credentials := ⟨none, none, some "X", none, none⟩

/-- An auth file supplying only `client_id="Y"`. -/
def fileClientIdY : Credentials := ⟨none, none, some "Y", none, none⟩

/-- C7 (counterexample): with `client_id="X"` passed to the constructor,
no environment variables, and an existing auth file whose `client_id` is
`"Y"` (and no access token anywhere), the resolved credentials are the
file's wholesale: the constructor-supplied `client_id="X"` is overwritten
by the lower-precedence file value `"Y"`. -/
theorem C7_counterexample :
    argsClientIdX.clientId = some "X"
    ∧ client_init argsClientIdX emptyCreds (.valid fileClientIdY) = .ok fileClientIdY
    ∧ fileClientIdY.clientId = some "Y"
    ∧ ("X" : String) ≠ "Y" :=
  ⟨rfl, rfl, rfl, by decide⟩

/-- C7 (amended): for each field an explicit constructor argument wins
over the environment variable (with Python truthiness: empty strings are
absent).  The credentials file is consulted only when the access token
resolved this way is falsy and the file exists; in that case all five
fields are replaced wholesale by the file's values, overwriting any
constructor- or environment-supplied values of the other four fields;
when the access token is resolved or the file does not exist, the file
is not read. -/
theorem C7_credential_resolution (args env : Credentials) (file : AuthFile) :
    (∀ x y : Option String,
      (pyTruthy x = true → pyOr x y = x) ∧ (pyTruthy x = false → pyOr x y = y))
    ∧ (pyTruthy (pyOr args.accessToken env.accessToken) = true →
        client_init args env file = .ok (resolveArgEnv args env))
    ∧ (pyTruthy (pyOr args.accessToken env.accessToken) = false →
        (∀ d, file = .valid d → client_init args env file = .ok d)
        ∧ (file = .absent →
            client_init args env file = .ok (resolveArgEnv args env))) := by
  have hat : (resolveArgEnv args env).accessToken
      = pyOr args.accessToken env.accessToken := rfl
  refine ⟨?_, ?_, ?_⟩
  · intro x y
    constructor <;> intro h <;> simp [pyOr, h]
  · intro h
    unfold client_init
    rw [hat, h]
    simp
  · intro h
    constructor
    · intro d hd
      subst hd
      unfold client_init
      rw [hat, h]
      simp [AuthFile.fileExists, load_auth]
    · intro hf
      subst hf
      unfold client_init
      rw [hat, h]
      simp [AuthFile.fileExists]

theorem C7_credential_resolution_witness :
    client_init ⟨some "at", none, none, none, none⟩ emptyCreds (.valid fileClientIdY)
      = .ok (resolveArgEnv ⟨some "at", none, none, none, none⟩ emptyCreds)
    ∧ client_init emptyCreds emptyCreds (.valid fileClientIdY) = .ok fileClientIdY
    ∧ client_init argsClientIdX emptyCreds .absent
      = .ok (resolveArgEnv argsClientIdX emptyCreds) :=
  ⟨(C7_credential_resolution _ _ _).2.1 (by decide),
   ((C7_credential_resolution _ _ _).2.2 (by decide)).1 fileClientIdY rfl,
   ((C7_credential_resolution _ _ _).2.2 (by decide)).2 rfl⟩

/-- C8 (counterexample): with no credentials supplied and an existing but
corrupt (not valid JSON) auth file, client construction fails with the
propagated JSON decode error instead of treating the file as absent. -/
theorem C8_counterexample :
    client_init emptyCreds emptyCreds .corrupt = .error "json.JSONDecodeError" := rfl

/-- C8 (amended): when no access token is resolved from arguments or
environment, a partial auth file — valid JSON with missing keys — is read
permissively (missing keys become absent fields, construction succeeds),
but a file that exists and is not valid JSON fails construction with the
JSON decode error. -/
theorem C8_partial_file_permissive (args env : Credentials) (d : Credentials)
    (h : pyTruthy (pyOr args.accessToken env.accessToken) = false) :
    client_init args env (.valid d) = .ok d
    ∧ client_init args env .corrupt = .error "json.JSONDecodeError" := by
  have hat : (resolveArgEnv args env).accessToken
      = pyOr args.accessToken env.accessToken := rfl
  constructor
  · unfold client_init
    rw [hat, h]
    simp [AuthFile.fileExists, load_auth]
  · unfold client_init
    rw [hat, h]
    simp [AuthFile.fileExists, load_auth]

theorem C8_partial_file_permissive_witness :
    client_init emptyCreds emptyCreds (.valid ⟨none, some "rt", none, none, none⟩)
      = .ok ⟨none, some "rt", none, none, none⟩
    ∧ client_init emptyCreds emptyCreds .corrupt = .error "json.JSONDecodeError" :=
  C8_partial_file_permissive emptyCreds emptyCreds ⟨none, some "rt", none, none, none⟩ rfl

/-- A transaction as the pagination loop consumes it: the loop reads only
the `id` field of the decoded `Transaction` record (models.py), so the
embedding carries that field. -/
structure Transaction where
  id : String
  deriving DecidableEq

/-- The query parameters of one `/transactions` request issued by the
pagination loop (client.py lines 440-444). -/
structure TxParams where
  accountId : String
  limit : Option String
  since : Option String
  before : Option String
  deriving DecidableEq

/-- Keep a truthy value, drop a falsy one (`if x: params[...] = x`). -/
def truthyOpt (s : Option String) : Option String :=
  if pyTruthy s then s else none

/-- Result of the pagination loop: accumulated transactions, the trace of
issued requests, and whether the loop exited by itself (`false` means the
fuel bound ran out first; the source loop is unbounded). -/
structure PageRun where
  txs : List Transaction
  trace : List TxParams
  done : Bool
  deriving DecidableEq

/-- The `while True` loop of `MonzoClient._get_all_transactions`
(client.py lines 436-461): request `limit=100` with the rolling `before`
cursor, stop on an empty page or a page of fewer than 100 items,
otherwise continue from the id of the page's last transaction.
`fetch p` is the decoded transaction list the server returns for
request `p`. -/
def get_all_transactions_aux (fetch : TxParams → List Transaction)
    (accountId : String) (since : Option String) :
    Option String → Nat → PageRun
  | _, 0 => ⟨[], [], false⟩
  | beforeId, fuel + 1 =>
    let p : TxParams :=
      { accountId := accountId, limit := some "100",
        since := truthyOpt since, before := truthyOpt beforeId }
    if (fetch p).isEmpty then
      ⟨[], [p], true⟩
    else if (fetch p).length < 100 then
      ⟨fetch p, [p], true⟩
    else
      let rest := get_all_transactions_aux fetch accountId since
        (some (((fetch p).getLast?.map Transaction.id).getD "")) fuel
      ⟨fetch p ++ rest.txs, p :: rest.trace, rest.done⟩

/-- `MonzoClient._get_all_transactions` (client.py lines 425-461) with
caller-supplied `since` and `before`. -/
def get_all_transactions (fetch : TxParams → List Transaction)
    (accountId : String) (since before : Option String) (fuel : Nat) : PageRun :=
  get_all_transactions_aux fetch accountId since before fuel

theorem mem_of_getLast?_eq {α : Type} :
    ∀ {l : List α} {a : α}, l.getLast? = some a → a ∈ l
  | [], _, h => by simp at h
  | [x], a, h => by
    simp at h
    simp [h]
  | x :: y :: ys, a, h => by
    rw [List.getLast?_cons_cons] at h
    exact List.mem_cons_of_mem _ (mem_of_getLast?_eq h)

theorem get_all_transactions_limit (fetch : TxParams → List Transaction)
    (accountId : String) (since : Option String) (fuel : Nat) :
    ∀ beforeId p,
      p ∈ (get_all_transactions_aux fetch accountId since beforeId fuel).trace →
      p.limit = some "100" := by
  induction fuel with
  | zero =>
    intro b p hp
    simp [get_all_transactions_aux] at hp
  | succ n ih =>
    intro b p hp
    simp only [get_all_transactions_aux] at hp
    split at hp
    · simp at hp
      subst hp
      rfl
    · split at hp
      · simp at hp
        subst hp
        rfl
      · simp only [List.mem_cons] at hp
        rcases hp with hp | hp
        · subst hp
          rfl
        · exact ih _ p hp

theorem get_all_transactions_head (fetch : TxParams → List Transaction)
    (accountId : String) (since : Option String) (fuel : Nat) :
    ∀ beforeId q,
      (get_all_transactions_aux fetch accountId since beforeId fuel).trace.head?
        = some q →
      q.before = truthyOpt beforeId := by
  cases fuel with
  | zero =>
    intro b q hq
    simp [get_all_transactions_aux] at hq
  | succ n =>
    intro b q hq
    simp only [get_all_transactions_aux] at hq
    split at hq
    · simp at hq
      subst hq
      rfl
    · split at hq
      · simp at hq
        subst hq
        rfl
      · simp at hq
        subst hq
        rfl

theorem get_all_transactions_chain (fetch : TxParams → List Transaction)
    (accountId : String) (since : Option String)
    (hids : ∀ p, ∀ tx ∈ fetch p, tx.id ≠ "") (fuel : Nat) :
    ∀ beforeId,
      List.Chain' (fun p q => q.before
          = some (((fetch p).getLast?.map Transaction.id).getD ""))
        (get_all_transactions_aux fetch accountId since beforeId fuel).trace := by
  induction fuel with
  | zero =>
    intro b
    simp [get_all_transactions_aux]
  | succ n ih =>
    intro b
    simp only [get_all_transactions_aux]
    set p : TxParams := ⟨accountId, some "100", truthyOpt since, truthyOpt b⟩ with hp
    split
    · exact List.chain'_singleton _
    · split
      · exact List.chain'_singleton _
      · rw [List.chain'_cons']
        refine ⟨?_, ih _⟩
        intro q hq
        rename_i hne hlen
        have hq' := get_all_transactions_head fetch accountId since n _ q hq
        have hnil : fetch p ≠ [] := fun hn => hne (by simp [hn])
        cases hgl : (fetch p).getLast? with
        | none =>
          exact absurd (List.getLast?_eq_none_iff.mp hgl) hnil
        | some tx =>
          have htx : tx.id ≠ "" := hids p tx (mem_of_getLast?_eq hgl)
          rw [hq', hgl]
          simp [truthyOpt, pyTruthy, htx]

theorem get_all_transactions_pages (fetch : TxParams → List Transaction)
    (accountId : String) (since : Option String) (fuel : Nat) :
    ∀ beforeId,
      (get_all_transactions_aux fetch accountId since beforeId fuel).done = true →
      (get_all_transactions_aux fetch accountId since beforeId fuel).txs
          = ((get_all_transactions_aux fetch accountId since beforeId fuel).trace.map
              fetch).flatten
      ∧ ∃ ps pl,
          (get_all_transactions_aux fetch accountId since beforeId fuel).trace
            = ps ++ [pl]
          ∧ (∀ p ∈ ps, 100 ≤ (fetch p).length)
          ∧ (fetch pl).length < 100 := by
  induction fuel with
  | zero =>
    intro b hdone
    simp [get_all_transactions_aux] at hdone
  | succ n ih =>
    intro b hdone
    simp only [get_all_transactions_aux] at hdone ⊢
    set p : TxParams := ⟨accountId, some "100", truthyOpt since, truthyOpt b⟩ with hp
    split at hdone
    · rename_i h1
      rw [if_pos h1]
      have hnil : fetch p = [] := List.isEmpty_iff.mp h1
      constructor
      · simp [hnil]
      · exact ⟨[], p, by simp, by simp, by simp [hnil]⟩
    · split at hdone
      · rename_i h1 h2
        rw [if_neg h1, if_pos h2]
        constructor
        · simp
        · exact ⟨[], p, by simp, by simp, h2⟩
      · rename_i h1 h2
        rw [if_neg h1, if_neg h2]
        simp only at hdone
        obtain ⟨hjoin, ps, pl, htr, hfull, hshort⟩ := ih _ hdone
        refine ⟨?_, p :: ps, pl, ?_, ?_, hshort⟩
        · simp only [List.map_cons, List.flatten_cons]
          rw [hjoin]
        · simp only [List.cons_append]
          rw [htr]
        · intro q hq
          rcases List.mem_cons.mp hq with hq | hq
          · subst hq
            omega
          · exact hfull q hq

/-- The server's transactions in the three-page scenario: 237 transactions
with ids `t0` … `t236`. -/
def tx237 : List Transaction := (List.range 237).map (fun i => ⟨"t" ++ toString i⟩)

/-- A server answering the three-page scenario: the first page is the
first 100 transactions, the page after cursor `t99` is the next 100, the
page after cursor `t199` is the remaining 37. -/
def fetch237 (p : TxParams) : List Transaction :=
  match p.before with
  | none => tx237.take 100
  | some b =>
    if b = "t99" then (tx237.drop 100).take 100
    else if b = "t199" then tx237.drop 200
    else []

/-- A server that always answers with an empty page. -/
def constNilFetch : TxParams → List Transaction := fun _ => []

set_option maxRecDepth 10000 in
/-- C5: every request of the auto-pagination loop carries `limit=100`;
each request after the first carries a `before` cursor equal to the id of
the last transaction of the previous page; when the loop terminates it
does so at the first page of fewer than 100 items (zero included), all
earlier pages having at least 100, and returns the concatenation of the
pages in server order; in the three-page scenario of sizes
[100, 100, 37] it issues exactly 3 requests with cursors `t99` and `t199`
and returns exactly the 237 transactions in original order. -/
theorem C5_auto_pagination :
    (∀ (fetch : TxParams → List Transaction) (accountId : String)
        (since before : Option String) (fuel : Nat) (p : TxParams),
        p ∈ (get_all_transactions fetch accountId since before fuel).trace →
        p.limit = some "100")
    ∧ (∀ (fetch : TxParams → List Transaction) (accountId : String)
        (since before : Option String) (fuel : Nat),
        (∀ p, ∀ tx ∈ fetch p, tx.id ≠ "") →
        List.Chain' (fun p q => q.before
            = some (((fetch p).getLast?.map Transaction.id).getD ""))
          (get_all_transactions fetch accountId since before fuel).trace)
    ∧ (∀ (fetch : TxParams → List Transaction) (accountId : String)
        (since before : Option String) (fuel : Nat),
        (get_all_transactions fetch accountId since before fuel).done = true →
        (get_all_transactions fetch accountId since before fuel).txs
            = ((get_all_transactions fetch accountId since before fuel).trace.map
                fetch).flatten
        ∧ ∃ ps pl,
            (get_all_transactions fetch accountId since before fuel).trace
              = ps ++ [pl]
            ∧ (∀ p ∈ ps, 100 ≤ (fetch p).length)
            ∧ (fetch pl).length < 100)
    ∧ (get_all_transactions fetch237 "acc_1" none none 10
        = ⟨tx237, [⟨"acc_1", some "100", none, none⟩,
                   ⟨"acc_1", some "100", none, some "t99"⟩,
                   ⟨"acc_1", some "100", none, some "t199"⟩], true⟩
      ∧ tx237.length = 237) := by
  refine ⟨?_, ?_, ?_, ?_, ?_⟩
  · intro fetch accountId since before fuel p hp
    exact get_all_transactions_limit fetch accountId since fuel before p hp
  · intro fetch accountId since before fuel hids
    exact get_all_transactions_chain fetch accountId since hids fuel before
  · intro fetch accountId since before fuel hdone
    exact get_all_transactions_pages fetch accountId since fuel before hdone
  · rfl
  · rfl

theorem C5_auto_pagination_witness :
    (⟨"acc_1", some "100", none, none⟩ : TxParams).limit = some "100"
    ∧ List.Chain' (fun p q => q.before
        = some (((constNilFetch p).getLast?.map Transaction.id).getD ""))
      (get_all_transactions constNilFetch "acc_1" none none 5).trace
    ∧ (get_all_transactions constNilFetch "acc_1" none none 5).txs
        = ((get_all_transactions constNilFetch "acc_1" none none 5).trace.map
            constNilFetch).flatten :=
  ⟨C5_auto_pagination.1 constNilFetch "acc_1" none none 5 _ (by
      show _ ∈ (get_all_transactions constNilFetch "acc_1" none none 5).trace
      simp [get_all_transactions, get_all_transactions_aux, constNilFetch,
        truthyOpt, pyTruthy]),
   C5_auto_pagination.2.1 constNilFetch "acc_1" none none 5
     (fun p tx htx => absurd htx (List.not_mem_nil tx)),
   (C5_auto_pagination.2.2.1 constNilFetch "acc_1" none none 5 rfl).1⟩

end Monzo
